import Mathlib

/-!
Shallow embedding of `forge/forge/models/json_schema.py` (class `JSONSchema`
and the module-level helper `_resolve_type_refs_in_schema`).

Modelling conventions:
* Python JSON-like values (the `dict | list | scalar` trees handled by the
  code) are the inductive type `Json`.  Python `dict`s are insertion-ordered
  association lists `List (String × Json)`; `dict.get` is `alGet`.
* Numeric leaves are modelled as `Int` (the claims under verification only
  involve integral bounds and defaults; `float` formatting is outside the
  modelled fragment).
* Fallible Python code (KeyError / IndexError / TypeError / pydantic
  ValidationError / NotImplementedError / ast parse errors) is modelled with
  `Except String`; the string names the exception that the source raises.
* Recursion in the source that is not structural (reference resolution can
  diverge on cyclic inputs; decoding recurses on freshly resolved documents)
  carries an explicit fuel argument, modelling the CPython recursion limit
  (`RecursionError`).  Fuel is an upper bound on recursion depth only; all
  theorems quantify over it.
* Python builtins that the source leans on (`repr`, `ast.literal_eval`,
  `str.split`, `textwrap.indent`, the `in` operator) are modelled on the
  JSON-representable fragment the source feeds them.
-/

namespace ForgeJsonSchema

/-- JSON-like Python values: `None`, `bool`, numbers, `str`, `list`, `dict`
(insertion-ordered association list). -/
inductive Json where
  | null : Json
  | bool (b : Bool) : Json
  | num (n : Int) : Json
  | str (s : String) : Json
  | arr (items : List Json) : Json
  | obj (fields : List (String × Json)) : Json

/-- Python `d.get(k)` on an (insertion-ordered, unique-key) dict. -/
def alGet (k : String) : List (String × Json) → Option Json
  | [] => none
  | kv :: rest => if kv.1 == k then some kv.2 else alGet k rest

/-- `Json.isNull j` is true exactly on the `None` value (the `v is not None`
test of `to_dict`). -/
def Json.isNull : Json → Bool
  | .null => true
  | _ => false

/-- Python truthiness of a JSON-like value (`if d:` / `if i:` tests). -/
def jsonTruthy : Json → Bool
  | .null => false
  | .bool b => b
  | .num n => n != 0
  | .str s => s != ""
  | .arr l => !l.isEmpty
  | .obj l => !l.isEmpty

/-- Python equality `k == e` between the string `k` and a JSON-like value
(used by the `in` operator on lists: only an equal string compares equal). -/
def pyEqStr (k : String) : Json → Bool
  | .str s => s == k
  | _ => false

/-- does the second char list start with the first -/
def charsLead : List Char → List Char → Bool
  | [], _ => true
  | _ :: _, [] => false
  | p :: ps, c :: cs => p == c && charsLead ps cs

/-- substring test on char lists (Python `needle in hay` for strings) -/
def charsHasSub (needle : List Char) : List Char → Bool
  | [] => needle.isEmpty
  | c :: cs => charsLead needle (c :: cs) || charsHasSub needle cs

/-- Python `needle in hay` on strings. -/
def strContains (hay needle : String) : Bool := charsHasSub needle.data hay.data

/-- Python `k in v` (membership operator) for the container shapes the source
can reach: list membership, substring test, dict-key membership; other values
raise `TypeError`. -/
def py_in (k : String) : Json → Except String Bool
  | .arr l => .ok (l.any (pyEqStr k))
  | .str s => .ok (strContains s k)
  | .obj fields => .ok (fields.any (fun kv => kv.1 == k))
  | _ => .error "TypeError: argument is not iterable"

/-- Python `s.split(c)` for a one-character separator, on char lists. -/
def splitChar (sep : Char) : List Char → List (List Char)
  | [] => [[]]
  | c :: cs =>
    match splitChar sep cs with
    | [] => []
    | h :: t => if c == sep then [] :: h :: t else (c :: h) :: t

/-- the apostrophe character (Python default string-repr quote) -/
def squo : Char := Char.ofNat 39

/-- the opening brace character -/
def obrace : Char := Char.ofNat 123

/-- the closing brace character -/
def cbrace : Char := Char.ofNat 125

/-- join a list of strings with a separator (Python `sep.join(parts)`). -/
def joinSep (sep : String) : List String → String
  | [] => ""
  | [x] => x
  | x :: y :: rest => x ++ sep ++ joinSep sep (y :: rest)

/-- escape a char list for Python string repr, given the chosen quote char -/
def pyEscapeChars (q : Char) : List Char → List Char
  | [] => []
  | c :: cs =>
    if c == '\\' then '\\' :: '\\' :: pyEscapeChars q cs
    else if c == q then '\\' :: q :: pyEscapeChars q cs
    else if c == '\n' then '\\' :: 'n' :: pyEscapeChars q cs
    else if c == '\t' then '\\' :: 't' :: pyEscapeChars q cs
    else if c == '\x0d' then '\\' :: 'r' :: pyEscapeChars q cs
    else c :: pyEscapeChars q cs

/-- Python `repr` of a string: single-quoted unless the string holds a single
quote and no double quote, with backslash escaping. -/
def pyReprStr (s : String) : String :=
  let q := if s.data.contains squo && !(s.data.contains '"') then '"' else squo
  (q :: (pyEscapeChars q s.data ++ [q])).asString

/-- Python `repr` on JSON-representable values (`None`, booleans, integers,
strings, lists, dicts), as used by `to_dict` for the `default` field and by
the enum projections.  The fuel bounds recursion depth. -/
def pyRepr : Nat → Json → String
  | _, .null => "None"
  | _, .bool true => "True"
  | _, .bool false => "False"
  | _, .num n => toString n
  | _, .str s => pyReprStr s
  | 0, .arr _ => ""
  | fuel + 1, .arr l => "[" ++ joinSep ", " (l.map (pyRepr fuel)) ++ "]"
  | 0, .obj _ => ""
  | fuel + 1, .obj l =>
    obrace.toString
      ++ joinSep ", " (l.map (fun kv => pyReprStr kv.1 ++ ": " ++ pyRepr fuel kv.2))
      ++ cbrace.toString

/-- drop leading whitespace (Python literal parsing skips spaces) -/
def skipWs : List Char → List Char
  | [] => []
  | c :: cs => if c.isWhitespace then skipWs cs else c :: cs

/-- if `cs` starts with `lead`, return the remainder -/
def stripLead : List Char → List Char → Option (List Char)
  | [], cs => some cs
  | _ :: _, [] => none
  | p :: ps, c :: cs => if c == p then stripLead ps cs else none

/-- digits-and-rest split for integer literals -/
def takeDigits : List Char → (List Char × List Char)
  | [] => ([], [])
  | c :: cs =>
    if c.isDigit then
      let (d, r) := takeDigits cs
      (c :: d, r)
    else ([], c :: cs)

/-- numeric value of a digit list -/
def digitsToNat (l : List Char) : Nat :=
  l.foldl (fun acc c => acc * 10 + (c.toNat - 48)) 0

/-- body of a Python string literal after the opening quote `q`; returns the
content and the remainder after the closing quote. -/
def parseStrBody (q : Char) : Nat → List Char → Except String (List Char × List Char)
  | 0, _ => .error "RecursionError"
  | _ + 1, [] => .error "SyntaxError: EOL while scanning string literal"
  | fuel + 1, c :: cs =>
    if c == q then .ok ([], cs)
    else if c == '\\' then
      match cs with
      | [] => .error "SyntaxError: EOL while scanning string literal"
      | e :: cs2 =>
        let dec : Except String Char :=
          if e == '\\' then .ok '\\'
          else if e == squo then .ok squo
          else if e == '"' then .ok '"'
          else if e == 'n' then .ok '\n'
          else if e == 't' then .ok '\t'
          else if e == 'r' then .ok '\x0d'
          else .error "SyntaxError: unsupported escape"
        do
          let ec ← dec
          let (body, rest) ← parseStrBody q fuel cs2
          .ok (ec :: body, rest)
    else do
      let (body, rest) ← parseStrBody q fuel cs
      .ok (c :: body, rest)

mutual

/-- one Python literal value (`ast.literal_eval` grammar restricted to the
JSON-representable fragment that `repr` emits). -/
def parseVal : Nat → List Char → Except String (Json × List Char)
  | 0, _ => .error "RecursionError"
  | fuel + 1, input =>
    let rest := skipWs input
    match stripLead "None".data rest with
    | some r => .ok (.null, r)
    | none =>
    match stripLead "True".data rest with
    | some r => .ok (.bool true, r)
    | none =>
    match stripLead "False".data rest with
    | some r => .ok (.bool false, r)
    | none =>
    match rest with
    | [] => .error "SyntaxError: unexpected EOF"
    | c :: cs =>
      if c == squo || c == '"' then do
        let (body, r) ← parseStrBody c (fuel + 1) cs
        .ok (.str body.asString, r)
      else if c == '-' then
        match takeDigits cs with
        | ([], _) => .error "SyntaxError: malformed node"
        | (ds, r) => .ok (.num (-(digitsToNat ds : Int)), r)
      else if c == '+' then
        match takeDigits cs with
        | ([], _) => .error "SyntaxError: malformed node"
        | (ds, r) => .ok (.num (digitsToNat ds : Int), r)
      else if c.isDigit then
        match takeDigits (c :: cs) with
        | (ds, r) => .ok (.num (digitsToNat ds : Int), r)
      else if c == '[' then
        parseListTail fuel cs
      else if c == obrace then
        parseDictTail fuel cs
      else .error "SyntaxError: malformed node"

/-- list literal after the opening bracket -/
def parseListTail : Nat → List Char → Except String (Json × List Char)
  | 0, _ => .error "RecursionError"
  | fuel + 1, input =>
    match skipWs input with
    | ']' :: r => .ok (.arr [], r)
    | rest => do
      let (v, r1) ← parseVal fuel rest
      let (vs, r2) ← parseCommaList fuel r1
      .ok (.arr (v :: vs), r2)

/-- remaining `, value` items of a list literal, up to the closing bracket -/
def parseCommaList : Nat → List Char → Except String (List Json × List Char)
  | 0, _ => .error "RecursionError"
  | fuel + 1, input =>
    match skipWs input with
    | ']' :: r => .ok ([], r)
    | ',' :: r => do
      let (v, r1) ← parseVal fuel r
      let (vs, r2) ← parseCommaList fuel r1
      .ok (v :: vs, r2)
    | _ => .error "SyntaxError: malformed node"

/-- dict literal after the opening brace (string keys only, as emitted by
`repr` on JSON-representable dicts) -/
def parseDictTail : Nat → List Char → Except String (Json × List Char)
  | 0, _ => .error "RecursionError"
  | fuel + 1, input =>
    match skipWs input with
    | c :: r =>
      if c == cbrace then .ok (.obj [], r)
      else do
        let (kv, r1) ← parseDictItem fuel (c :: r)
        let (kvs, r2) ← parseCommaDict fuel r1
        .ok (.obj (kv :: kvs), r2)
    | [] => .error "SyntaxError: unexpected EOF"

/-- one `key: value` item of a dict literal -/
def parseDictItem : Nat → List Char → Except String ((String × Json) × List Char)
  | 0, _ => .error "RecursionError"
  | fuel + 1, input => do
    let (k, r1) ← parseVal fuel input
    match k with
    | .str ks =>
      match skipWs r1 with
      | ':' :: r2 => do
        let (v, r3) ← parseVal fuel r2
        .ok ((ks, v), r3)
      | _ => .error "SyntaxError: malformed node"
    | _ => .error "ValueError: unsupported dict key"

/-- remaining `, key: value` items of a dict literal -/
def parseCommaDict : Nat → List Char → Except String (List (String × Json) × List Char)
  | 0, _ => .error "RecursionError"
  | fuel + 1, input =>
    match skipWs input with
    | c :: r =>
      if c == cbrace then .ok ([], r)
      else if c == ',' then do
        let (kv, r1) ← parseDictItem fuel r
        let (kvs, r2) ← parseCommaDict fuel r1
        .ok (kv :: kvs, r2)
      else .error "SyntaxError: malformed node"
    | [] => .error "SyntaxError: unexpected EOF"

end

/-- Python `ast.literal_eval` on the literal strings produced by `repr` over
JSON-representable values (used by `from_dict` to re-parse `default`). -/
def literal_eval (s : String) : Except String Json :=
  match parseVal (4 * s.data.length + 4) s.data with
  | .ok (v, rest) =>
    match skipWs rest with
    | [] => .ok v
    | _ => .error "SyntaxError: malformed node"
  | .error e => .error e

/-- the `JSONSchema.Type` string enum -/
inductive SchemaType where
  | string
  | array
  | object
  | number
  | integer
  | boolean
  | type
  deriving DecidableEq

/-- the `.value` of a `JSONSchema.Type` member -/
def SchemaType.value : SchemaType → String
  | .string => "string"
  | .array => "array"
  | .object => "object"
  | .number => "number"
  | .integer => "integer"
  | .boolean => "boolean"
  | .type => "type"

/-- pydantic coercion of a string into the `JSONSchema.Type` enum -/
def SchemaType.ofString : String → Option SchemaType
  | "string" => some .string
  | "array" => some .array
  | "object" => some .object
  | "number" => some .number
  | "integer" => some .integer
  | "boolean" => some .boolean
  | "type" => some .type
  | _ => none

/-- the `JSONSchema` pydantic model: a recursive schema node.  Field order
and names follow the source; `default` is `Json.null` when absent (Python
`None`), `properties` is an ordered association list. -/
inductive JSONSchema where
  | mk
    (description : Option String)
    (type : Option SchemaType)
    (enum : Option (List Json))
    (required : Bool)
    (default : Json)
    (items : Option JSONSchema)
    (properties : Option (List (String × JSONSchema)))
    (additional_properties : Option JSONSchema)
    (minimum : Option Int)
    (maximum : Option Int)
    (minItems : Option Int)
    (maxItems : Option Int)
    : JSONSchema

/-- the `description` field -/
def JSONSchema.description : JSONSchema → Option String
  | .mk d _ _ _ _ _ _ _ _ _ _ _ => d

/-- the `type` field -/
def JSONSchema.type : JSONSchema → Option SchemaType
  | .mk _ t _ _ _ _ _ _ _ _ _ _ => t

/-- the `enum` field -/
def JSONSchema.enum : JSONSchema → Option (List Json)
  | .mk _ _ e _ _ _ _ _ _ _ _ _ => e

/-- the `required` field -/
def JSONSchema.required : JSONSchema → Bool
  | .mk _ _ _ r _ _ _ _ _ _ _ _ => r

/-- the `default` field (`Json.null` = Python `None` = absent) -/
def JSONSchema.default : JSONSchema → Json
  | .mk _ _ _ _ d _ _ _ _ _ _ _ => d

/-- the `items` field -/
def JSONSchema.items : JSONSchema → Option JSONSchema
  | .mk _ _ _ _ _ i _ _ _ _ _ _ => i

/-- the `properties` field -/
def JSONSchema.properties : JSONSchema → Option (List (String × JSONSchema))
  | .mk _ _ _ _ _ _ p _ _ _ _ _ => p

/-- the `additional_properties` field -/
def JSONSchema.additional_properties : JSONSchema → Option JSONSchema
  | .mk _ _ _ _ _ _ _ ap _ _ _ _ => ap

/-- the `minimum` field -/
def JSONSchema.minimum : JSONSchema → Option Int
  | .mk _ _ _ _ _ _ _ _ mn _ _ _ => mn

/-- the `maximum` field -/
def JSONSchema.maximum : JSONSchema → Option Int
  | .mk _ _ _ _ _ _ _ _ _ mx _ _ => mx

/-- the `minItems` field -/
def JSONSchema.minItems : JSONSchema → Option Int
  | .mk _ _ _ _ _ _ _ _ _ _ mi _ => mi

/-- the `maxItems` field -/
def JSONSchema.maxItems : JSONSchema → Option Int
  | .mk _ _ _ _ _ _ _ _ _ _ _ ma => ma

/-- the Python attribute assignment `v.required = b` -/
def JSONSchema.withRequired : JSONSchema → Bool → JSONSchema
  | .mk d t e _ df i p ap mn mx mi ma, b => .mk d t e b df i p ap mn mx mi ma

/-- Python truthiness of the `properties` attribute (`if self.properties:`):
absent or empty dicts are falsy. -/
def propsTruthy : Option (List (String × JSONSchema)) → Bool
  | none => false
  | some [] => false
  | some (_ :: _) => true

/-- Python truthiness of the `enum` attribute (`if self.enum:` / `elif
self.enum:`): absent or empty lists are falsy. -/
def enumTruthy : Option (List Json) → Bool
  | none => false
  | some [] => false
  | some (_ :: _) => true

/-- an optional value as the dict entry Python writes for it (`None` when
absent, so that the `is not None` filter drops it) -/
def optJson (f : Int → Json) : Option Int → Json
  | none => .null
  | some n => f n

/-- the `v is not None` filter predicate of `to_dict` -/
def keepEntry (kv : String × Json) : Bool := !kv.2.isNull

/-- the unconditional entries of the `schema` dict literal that `to_dict`
builds first (`type`, `description`, `default`), with the default already
passed through `repr` (the function argument) -/
def to_dict_base (reprF : Json → String) (s : JSONSchema) : List (String × Json) :=
  [("type", match s.type with
      | some t => .str t.value
      | none => .null),
   ("description", match s.description with
      | some d => .str d
      | none => .null),
   ("default", .str (reprF s.default))]

/-- the category-dependent entries that the if/elif chain of `to_dict` adds
to the `schema` dict (array / object / truthy enum / scalar-with-bounds,
the scalar branch spelling the minimum key `minumum` as the source does),
with `enc` the encoder applied to child nodes -/
def to_dict_branch (enc : JSONSchema → List (String × Json)) (s : JSONSchema) :
    List (String × Json) :=
  if s.type = some .array then
    (match s.items with
      | some i => [("items", .obj (enc i))]
      | none => [])
    ++ [("minItems", optJson .num s.minItems), ("maxItems", optJson .num s.maxItems)]
  else if s.type = some .object then
    (match s.properties with
      | some props =>
        if props.isEmpty then []
        else
          [("properties", .obj (props.map (fun kv => (kv.1, .obj (enc kv.2))))),
           ("required", .arr ((props.filter (fun kv => kv.2.required)).map
              (fun kv => .str kv.1)))]
      | none => [])
    ++ (match s.additional_properties with
        | some ap => [("additionalProperties", .obj (enc ap))]
        | none => [])
  else if enumTruthy s.enum then
    [("enum", .arr (s.enum.getD []))]
  else
    [("minumum", optJson .num s.minimum), ("maximum", optJson .num s.maximum)]

/-- `JSONSchema.to_dict`: encode a node as a plain document.  Mirrors the
source: the base dict of `type`/`description`/`default` (with `default` the
`repr` text of the default), then the category-dependent branch entries,
then the `is not None` filter. -/
def to_dict : Nat → JSONSchema → List (String × Json)
  | 0, _ => []
  | fuel + 1, s =>
    (to_dict_base (pyRepr fuel) s ++ to_dict_branch (to_dict fuel) s).filter keepEntry

/-- the keys `to_dict` emits, per field-presence and per active category:
`type` exactly when a kind is present, `description` exactly when present,
`default` always; then, for an array node, `items`/`minItems`/`maxItems`
each exactly when present; for an object node, `properties` and `required`
exactly when `properties` is truthy and `additionalProperties` exactly when
present; for a node with a truthy enum (and kind neither array nor object),
`enum`; otherwise the (misspelled) `minumum` and `maximum` each exactly
when present.  This is the reference key policy that the C2 theorem proves
equal to the emitted key list. -/
def to_dict_expected_keys (s : JSONSchema) : List String :=
  ((if s.type.isSome then ["type"] else [])
    ++ (if s.description.isSome then ["description"] else [])
    ++ ["default"])
  ++ (if s.type = some .array then
        (if s.items.isSome then ["items"] else [])
          ++ (if s.minItems.isSome then ["minItems"] else [])
          ++ (if s.maxItems.isSome then ["maxItems"] else [])
      else if s.type = some .object then
        (if propsTruthy s.properties then ["properties", "required"] else [])
          ++ (if s.additional_properties.isSome then ["additionalProperties"] else [])
      else if enumTruthy s.enum then ["enum"]
      else
        (if s.minimum.isSome then ["minumum"] else [])
          ++ (if s.maximum.isSome then ["maximum"] else []))

/-- effectful left-to-right map over a list (a Python list/dict
comprehension whose body may raise: the first exception propagates). -/
def mapME {α β : Type} (f : α → Except String β) : List α → Except String (List β)
  | [] => .ok []
  | a :: rest => do
    let b ← f a
    let bs ← mapME f rest
    .ok (b :: bs)

/-- effectful left-to-right map over the values of an association list,
keeping the keys (a Python dict comprehension `{k: f(v) for k, v in d}`). -/
def mapPairsE {κ γ δ : Type} (f : γ → Except String δ) :
    List (κ × γ) → Except String (List (κ × δ))
  | [] => .ok []
  | kv :: rest => do
    let v ← f kv.2
    let vs ← mapPairsE f rest
    .ok ((kv.1, v) :: vs)

/-- the path walk `for key in ref_path: ref_value = ref_value[key]` of
`_resolve_type_refs_in_schema`: subscripting a dict by a missing key is a
`KeyError`; subscripting anything else by a string key is a `TypeError`. -/
def ref_lookup : Json → List String → Except String Json
  | v, [] => .ok v
  | .obj fields, k :: ks =>
    match alGet k fields with
    | some v => ref_lookup v ks
    | none => .error ("KeyError: " ++ k)
  | _, _ :: _ => .error "TypeError: value is not subscriptable by a string"

/-- the split-and-drop of `schema["$ref"].split("/")[2:]` -/
def refPath (s : String) : List String :=
  ((splitChar '/' s.data).map List.asString).drop 2

/-- `_resolve_type_refs_in_schema`: recursively inline `$ref` pointers
against the definitions table.  A mapping holding `$ref` is replaced
wholesale by the recursively resolved referenced fragment; other mappings are
copied key-by-key with resolved values; sequences resolve element-wise;
scalars pass through.  Fuel models the CPython recursion limit (cyclic
reference graphs are out of scope and exhaust it). -/
def resolve_type_refs_in_schema : Nat → Json → Json → Except String Json
  | 0, _, _ => .error "RecursionError"
  | fuel + 1, .obj fields, definitions =>
    (match alGet "$ref" fields with
     | some (.str s) => do
       let frag ← ref_lookup definitions (refPath s)
       resolve_type_refs_in_schema fuel frag definitions
     | some _ => .error "AttributeError: split"
     | none => do
       let resolved ← mapPairsE (fun v => resolve_type_refs_in_schema fuel v definitions) fields
       pure (Json.obj resolved))
  | fuel + 1, .arr l, definitions => do
    let resolved ← mapME (fun x => resolve_type_refs_in_schema fuel x definitions) l
    pure (Json.arr resolved)
  | _ + 1, j, _ => .ok j

/-- pydantic coercion of a document value into an `Optional[int | float]`
field (numeric bounds); `None`/absent stays absent.  String-to-number
coercion is outside the modelled fragment. -/
def optIntField (k : String) (f : List (String × Json)) : Except String (Option Int) :=
  match alGet k f with
  | none => .ok none
  | some .null => .ok none
  | some (.num n) => .ok (some n)
  | some _ => .error ("ValidationError: " ++ k)

/-- `.get`-style field access needs a dict: anything else raises
`AttributeError` -/
def dictFields : Json → Except String (List (String × Json))
  | .obj fs => .ok fs
  | _ => .error "AttributeError: get"

/-- the mandatory `schema["type"]` subscript (KeyError when absent) -/
def typeKey (f : List (String × Json)) : Except String Json :=
  match alGet "type" f with
  | some v => .ok v
  | none => .error "KeyError: type"

/-- `ast.literal_eval(d) if (d := schema.get("default")) else None`: absent
or falsy raw values give an absent default, truthy strings are re-parsed,
truthy non-strings raise `TypeError` inside `literal_eval`. -/
def defaultField (f : List (String × Json)) : Except String Json :=
  match alGet "default" f with
  | none => .ok .null
  | some d =>
    if jsonTruthy d then
      match d with
      | .str s => literal_eval s
      | _ => .error "TypeError: literal_eval"
    else .ok .null

/-- pydantic validation of the `description` value into `Optional[str]` -/
def descriptionField (f : List (String × Json)) : Except String (Option String) :=
  match alGet "description" f with
  | none => .ok none
  | some .null => .ok none
  | some (.str s) => .ok (some s)
  | some _ => .error "ValidationError: description"

/-- pydantic coercion of the raw `type` value into `Optional[Type]` -/
def typeField : Json → Except String (Option SchemaType)
  | .null => .ok none
  | .str s =>
    match SchemaType.ofString s with
    | some t => .ok (some t)
    | none => .error "ValidationError: type"
  | _ => .error "ValidationError: type"

/-- pydantic validation of the `enum` value into `Optional[list]` -/
def enumField (f : List (String × Json)) : Except String (Option (List Json)) :=
  match alGet "enum" f with
  | none => .ok none
  | some .null => .ok none
  | some (.arr l) => .ok (some l)
  | some _ => .error "ValidationError: enum"

/-- the raw comparison `schema["type"] == "object"` -/
def isObjectType : Json → Bool
  | .str s => s == "object"
  | _ => false

/-- run a decoding action on a present optional raw value, or produce the
given default -/
def optStep {α : Type} (g : Json → Except String α) (d : α) : Option Json → Except String α
  | none => .ok d
  | some v => g v

/-- run an object-only decoding action, or produce `None` when the node is
not an object (the `if schema["type"] == "object"` guards) -/
def guardObj {α : Type} (isObj : Bool) (act : Except String (Option α)) :
    Except String (Option α) :=
  if isObj then act else .ok none

/-- the `properties` extraction of `parse_properties`: decode each value of
the `properties` dict (a non-dict value raises at `.items()`), or `{}` when
the key is absent -/
def propsStep (dec : Json → Except String JSONSchema) :
    Option Json → Except String (List (String × JSONSchema))
  | some (.obj pf) => mapPairsE dec pf
  | some _ => .error "AttributeError: items"
  | none => .ok []

/-- the `required`-derivation loop of `parse_properties`:
`for k, v in properties.items(): v.required = k in schema_node["required"]`
(the membership test may raise `TypeError`, which propagates). -/
def setRequiredE (reqv : Json) : List (String × JSONSchema) → Except String (List (String × JSONSchema))
  | [] => .ok []
  | kv :: rest => do
    let b ← py_in kv.1 reqv
    let vs ← setRequiredE reqv rest
    .ok ((kv.1, kv.2.withRequired b) :: vs)

/-- the `required`-derivation step of `parse_properties`: rewrite the flags
when a `required` entry is present, otherwise keep the decoded properties -/
def reqStep : Option Json → List (String × JSONSchema) → Except String (List (String × JSONSchema))
  | some reqv, props => setRequiredE reqv props
  | none, props => .ok props

mutual

/-- `JSONSchema.from_dict`: decode a document into a node.  Mirrors the
source: pull `definitions`, resolve `$ref`s, then build the node, with
`schema["type"]` a mandatory key, `default` re-parsed by `literal_eval` when
truthy, `items`/`additionalProperties` decoded recursively when truthy, and
`properties` decoded via `parse_properties` exactly when the raw `type` value
equals `"object"`.  Error order follows CPython: argument-evaluation errors
(KeyError, literal-eval, recursive decode) fire in argument order, pydantic
coercion errors at construction.  The constructed node never sets
`required` (pydantic default `False`). -/
def from_dict : Nat → Json → Except String JSONSchema
  | 0, _ => .error "RecursionError"
  | fuel + 1, schema => do
    let fields ← dictFields schema
    let definitions := (alGet "definitions" fields).getD (.obj [])
    let resolved ← resolve_type_refs_in_schema (fuel + 1) (.obj fields) definitions
    let f ← dictFields resolved
    let tyv ← typeKey f
    let dflt ← defaultField f
    let items ← optStep (fun i =>
      if jsonTruthy i then (fun x => some x) <$> from_dict fuel i else .ok none) none
      (alGet "items" f)
    let properties ← guardObj (isObjectType tyv)
      ((fun x => some x) <$> parse_properties fuel f)
    let addl ← guardObj (isObjectType tyv) (optStep (fun ap =>
      if jsonTruthy ap then (fun x => some x) <$> from_dict fuel ap else .ok none) none
      (alGet "additionalProperties" f))
    let description ← descriptionField f
    let ty ← typeField tyv
    let enumv ← enumField f
    let minimum ← optIntField "minimum" f
    let maximum ← optIntField "maximum" f
    let minItems ← optIntField "minItems" f
    let maxItems ← optIntField "maxItems" f
    pure (JSONSchema.mk description ty enumv false dflt items properties addl
      minimum maximum minItems maxItems)

/-- `JSONSchema.parse_properties`: decode the `properties` dict (each value
recursively) and, when a `required` entry exists, overwrite each property
node with `required = key in schema_node["required"]`; with no `required`
entry every property keeps the decode default `required = False`. -/
def parse_properties : Nat → List (String × Json) → Except String (List (String × JSONSchema))
  | 0, _ => .error "RecursionError"
  | fuel + 1, schema_node => do
    let props ← propsStep (from_dict fuel) (alGet "properties" schema_node)
    reqStep (alGet "required" schema_node) props

end

/-- the class constant `_JSON_TO_PYTHON_TYPE` (inversion of
`_PYTHON_TO_JSON_TYPE`): the four scalar kinds map to the Python primitive
type name, everything else is absent from the table. -/
def JSON_TO_PYTHON_TYPE : SchemaType → Option String
  | .integer => some "int"
  | .string => some "str"
  | .boolean => some "bool"
  | .number => some "float"
  | _ => none

/-- `textwrap.indent(s, p)`: prepend `p` to every line that holds a
non-whitespace character. -/
def pyIndent (s p : String) : String :=
  joinSep "\n" ((splitChar '\n' s.data).map (fun line =>
    if line.any (fun c => !c.isWhitespace) then p ++ line.asString else line.asString))

/-- `JSONSchema.python_type`: project a node to a Python type string.  The
primitive-kind table is consulted first, then the array and object branches,
and only then the enum branch, so the enum union can only be reached with
kind `type` or no kind.  An object with truthy `properties` raises
`NotImplementedError`. -/
def python_type : Nat → JSONSchema → Except String String
  | 0, _ => .error "RecursionError"
  | fuel + 1, s =>
    match s.type.bind JSON_TO_PYTHON_TYPE with
    | some name => .ok name
    | none =>
      if s.type = some .array then
        match s.items with
        | some i => (fun t => "list[" ++ t ++ "]") <$> python_type fuel i
        | none => .ok "list"
      else if s.type = some .object then
        if propsTruthy s.properties then
          .error "NotImplementedError: JSONSchema.python_type does not support TypedDicts yet"
        else .ok "dict"
      else if enumTruthy s.enum then
        .ok ("Union[" ++ joinSep ", " ((s.enum.getD []).map (pyRepr fuel)) ++ "]")
      else if s.type = some .type then .ok "type"
      else if s.type = none then .ok "Any"
      else .error "NotImplementedError: python_type unsupported"

mutual

/-- `JSONSchema.typescript_type`: project a node to a TypeScript type
string.  Absent kind is checked first (`any`), then the primitive kinds, then
array/object, then the enum union (reachable only with kind `type`), then
kind `type`. -/
def typescript_type : Nat → JSONSchema → Except String String
  | 0, _ => .error "RecursionError"
  | fuel + 1, s =>
    if s.type = none then .ok "any"
    else if s.type = some .boolean then .ok "boolean"
    else if s.type = some .integer ∨ s.type = some .number then .ok "number"
    else if s.type = some .string then .ok "string"
    else if s.type = some .array then
      match s.items with
      | some i => (fun t => "Array<" ++ t ++ ">") <$> typescript_type fuel i
      | none => .ok "Array"
    else if s.type = some .object then
      if propsTruthy s.properties then to_typescript_object_interface fuel s ""
      else .ok "Record<string, any>"
    else if enumTruthy s.enum then
      .ok (joinSep " | " ((s.enum.getD []).map (pyRepr fuel)))
    else if s.type = some .type then .ok "type"
    else .error "NotImplementedError: typescript_type unsupported"

/-- `JSONSchema.to_typescript_object_interface`: render an object node as an
inline structural interface (description comment line per property when the
description is truthy, i.e. present and non-empty, one `name: type;` line
per property, indented two spaces), or an index signature when `properties`
is falsy; non-object nodes raise `NotImplementedError`. -/
def to_typescript_object_interface : Nat → JSONSchema → String → Except String String
  | 0, _, _ => .error "RecursionError"
  | fuel + 1, s, interface_name =>
    if s.type ≠ some .object then
      .error "NotImplementedError: Only object schemas are supported"
    else do
      let attributes_string ←
        if propsTruthy s.properties then do
          let attrs ← mapME (fun kv =>
            (typescript_type fuel kv.2).map (fun t =>
              (match kv.2.description with
                | some d => if d == "" then [] else ["// " ++ d]
                | none => []) ++ [kv.1 ++ ": " ++ t ++ ";"])) (s.properties.getD [])
          pure (joinSep "\n" attrs.flatten)
        else pure "[key: string]: any"
      pure ((if interface_name ≠ "" then "interface " ++ interface_name ++ " " else "")
        ++ obrace.toString ++ "\n" ++ pyIndent attributes_string "  " ++ "\n" ++ cbrace.toString)

end

/-- native Python type descriptors as `typing` reflects them for
`from_python_type`: the four primitives, `NoneType`, `Union[...]` (argument
list), a pydantic `BaseModel` subclass carrying its schema document,
`list`/`list[...]` and `dict`/`dict[...]` with their (possibly empty)
argument lists, a `TypedDict` with its annotations, and any other type. -/
inductive PyType where
  | int : PyType
  | str : PyType
  | bool : PyType
  | float : PyType
  | noneType : PyType
  | union (args : List PyType) : PyType
  | baseModel (schema : Json) : PyType
  | list (args : List PyType) : PyType
  | dict (args : List PyType) : PyType
  | typedDict (fields : List (String × PyType)) : PyType
  | other (name : String) : PyType

/-- the class constant `_PYTHON_TO_JSON_TYPE` -/
def PYTHON_TO_JSON_TYPE : PyType → Option SchemaType
  | .int => some .integer
  | .str => some .string
  | .bool => some .boolean
  | .float => some .number
  | _ => none

/-- `typing.get_args(T)[-1] is NoneType` -/
def isNoneType : PyType → Bool
  | .noneType => true
  | _ => false

/-- `JSONSchema.from_python_type`: infer a node from a native type
descriptor.  The elif chain of the source in order: primitive table;
optional-union (recurse into the wrapped type and clear `required`,
returning early); `issubclass(T, BaseModel)` -- which raises
`TypeError: issubclass() arg 1 must be a class` for every first argument
that is not a class, i.e. for union special forms AND for every
parametrized generic alias such as `list[E]` or `dict[K, V]`, so the list
and dict branches below are only ever reached by the bare builtin classes
`list`/`dict` (which are classes and merely fail the subclass test); `list`
(where `typing.get_args(list)[0]` raises `IndexError` on the empty args
tuple of the bare class, so the `else None` untyped-array fallback of the
source conditional is unreachable, and the items-inference expression is
dead code); `dict` (same `IndexError` via `get_args(dict)[1]`);
`TypedDict` (TypedDict subclasses are real classes and pass the earlier
subclass test as `False`); otherwise `TypeError`.  Every non-union branch
finishes with `partial_schema.required = True`.  In the `PyType` model a
`.list`/`.dict` with a non-empty argument list is a parametrized generic
alias (not a class) and one with an empty argument list is the bare builtin
class. -/
def from_python_type : Nat → PyType → Except String JSONSchema
  | 0, _ => .error "RecursionError"
  | fuel + 1, T =>
    match PYTHON_TO_JSON_TYPE T with
    | some t =>
      .ok ((JSONSchema.mk none (some t) none true .null none none none
        none none none none).withRequired true)
    | none =>
      match T with
      | .union args =>
        if (match args.getLast? with
            | some a => isNoneType a
            | none => false) then
          if (args.dropLast).length > 1 then
            .error "NotImplementedError: Union types are currently not supported"
          else
            match args.head? with
            | none => .error "IndexError: tuple index out of range"
            | some a => do
              let ps ← from_python_type fuel a
              .ok (ps.withRequired false)
        else .error "TypeError: issubclass() arg 1 must be a class"
      | .baseModel schema => do
        let ps ← from_dict fuel schema
        .ok (ps.withRequired true)
      | .list args =>
        match args with
        | [] => .error "IndexError: tuple index out of range"
        | _ :: _ => .error "TypeError: issubclass() arg 1 must be a class"
      | .dict args =>
        match args with
        | [] => .error "IndexError: tuple index out of range"
        | _ :: _ => .error "TypeError: issubclass() arg 1 must be a class"
      | .typedDict tfields => do
        let props ← mapPairsE (from_python_type fuel) tfields
        .ok ((JSONSchema.mk none (some .object) none false .null none (some props) none
          none none none none).withRequired true)
      | _ => .error "TypeError: JSONSchema.from_python_type is not implemented for this type"

/-- ref-free check used to state that successful resolution leaves no
unresolved `$ref` mapping anywhere in the output (fuel bounds the inspected
depth; a value is ref-free when the check holds for every fuel). -/
def refFreeB : Nat → Json → Bool
  | _, .null => true
  | _, .bool _ => true
  | _, .num _ => true
  | _, .str _ => true
  | 0, .arr _ => true
  | 0, .obj _ => true
  | fuel + 1, .arr l => l.all (refFreeB fuel)
  | fuel + 1, .obj fs => (alGet "$ref" fs).isNone && fs.all (fun kv => refFreeB fuel kv.2)

/-! Concrete inputs used by the claim theorems. -/

/-- a node with kind `integer` and `minimum = 5` (no enum, no
additional properties) -/
def c1Node : JSONSchema :=
  .mk none (some .integer) none false .null none none none (some 5) none none none

/-- a node with every optional field absent -/
def emptyNode : JSONSchema :=
  .mk none none none false .null none none none none none none none

/-- a node with kind `string` and a non-empty enum -/
def c3Node : JSONSchema :=
  .mk none (some .string) (some [.str "a", .str "b"]) false .null none none none
    none none none none

/-- a node with kind `integer` and a non-empty enum -/
def c3IntNode : JSONSchema :=
  .mk none (some .integer) (some [.num 1]) false .null none none none
    none none none none

/-- a node with kind `number` and a non-empty enum -/
def c3NumNode : JSONSchema :=
  .mk none (some .number) (some [.num 1]) false .null none none none
    none none none none

/-- a node with kind `boolean` and a non-empty enum -/
def c3BoolNode : JSONSchema :=
  .mk none (some .boolean) (some [.bool true]) false .null none none none
    none none none none

/-- a node with kind `type` and a non-empty enum -/
def c3TypeNode : JSONSchema :=
  .mk none (some .type) (some [.str "a"]) false .null none none none
    none none none none

/-- a node with no kind and a non-empty enum -/
def c3NoneNode : JSONSchema :=
  .mk none none (some [.str "a"]) false .null none none none
    none none none none

/-- a definitions table where `Foo` is itself a reference to `Bar` -/
def defs0 : Json :=
  .obj [("Foo", .obj [("$ref", .str "#/definitions/Bar")]),
        ("Bar", .obj [("type", .str "string")])]

/-- an object node with one declared property -/
def c9ClosedNode : JSONSchema :=
  .mk none (some .object) none false .null none (some [("a", emptyNode)]) none
    none none none none

/-- an object node with no declared properties -/
def c9OpenNode : JSONSchema :=
  .mk none (some .object) none false .null none none none none none none none

/-! Helper lemmas about the `Except` monad and association lists. -/

@[simp] theorem ok_bind {α β : Type} {a : α} {f : α → Except String β} :
    (Except.ok a >>= f) = f a := rfl

@[simp] theorem error_bind {α β : Type} {e : String} {f : α → Except String β} :
    ((Except.error e : Except String α) >>= f) = Except.error e := rfl

theorem bind_ok_iff {α β : Type} {x : Except String α} {f : α → Except String β} {b : β} :
    (x >>= f) = Except.ok b ↔ ∃ a, x = Except.ok a ∧ f a = Except.ok b := by
  cases x <;> simp [Except.bind]

@[simp] theorem pure_ok_iff {α : Type} {a b : α} :
    (pure a : Except String α) = Except.ok b ↔ a = b := by
  constructor
  · intro h
    cases h
    rfl
  · intro h
    cases h
    rfl

theorem map_ok_iff {α β : Type} {g : α → β} {x : Except String α} {b : β} :
    (g <$> x) = Except.ok b ↔ ∃ a, x = Except.ok a ∧ g a = b := by
  cases x <;> simp [Except.map, Functor.map]

theorem mapME_ok_forall {α β : Type} {f : α → Except String β} :
    ∀ {l : List α} {l2 : List β}, mapME f l = Except.ok l2 →
      ∀ b ∈ l2, ∃ a ∈ l, f a = Except.ok b := by
  intro l
  induction l with
  | nil =>
    intro l2 h
    simp only [mapME] at h
    injection h with h
    subst h
    simp
  | cons a rest ih =>
    intro l2 h b hb
    simp only [mapME] at h
    rw [bind_ok_iff] at h
    obtain ⟨v, hv, h⟩ := h
    rw [bind_ok_iff] at h
    obtain ⟨vs, hvs, h⟩ := h
    injection h with h
    subst h
    rcases List.mem_cons.mp hb with hb | hb
    · exact ⟨a, List.mem_cons_self a rest, hb ▸ hv⟩
    · obtain ⟨a2, ha2, hfa2⟩ := ih hvs b hb
      exact ⟨a2, List.mem_cons_of_mem a ha2, hfa2⟩

theorem mapME_ok_of_ok {α β : Type} {f : α → Except String β} {g : α → β}
    (hfg : ∀ a, f a = Except.ok (g a)) :
    ∀ l : List α, mapME f l = Except.ok (l.map g) := by
  intro l
  induction l with
  | nil => simp [mapME]
  | cons a rest ih => rw [List.map_cons, mapME, hfg a, ok_bind, ih, ok_bind]

/-- successful `mapPairsE` relates every output entry to an input entry with
the same key -/
theorem mapPairsE_ok_forall {κ γ δ : Type} {f : γ → Except String δ} :
    ∀ {l : List (κ × γ)} {l2 : List (κ × δ)}, mapPairsE f l = Except.ok l2 →
      ∀ kv ∈ l2, ∃ v, (kv.1, v) ∈ l ∧ f v = Except.ok kv.2 := by
  intro l
  induction l with
  | nil =>
    intro l2 h
    simp only [mapPairsE] at h
    injection h with h
    subst h
    simp
  | cons a rest ih =>
    intro l2 h kv hkv
    simp only [mapPairsE] at h
    rw [bind_ok_iff] at h
    obtain ⟨v, hv, h⟩ := h
    rw [bind_ok_iff] at h
    obtain ⟨vs, hvs, h⟩ := h
    injection h with h
    subst h
    rcases List.mem_cons.mp hkv with hkv | hkv
    · subst hkv
      exact ⟨a.2, List.mem_cons_self a rest, hv⟩
    · obtain ⟨w, hw, hfw⟩ := ih hvs kv hkv
      exact ⟨w, List.mem_cons_of_mem a hw, hfw⟩

/-- keys are preserved by `mapPairsE` -/
theorem mapPairsE_keys {κ γ δ : Type} {f : γ → Except String δ} :
    ∀ {l : List (κ × γ)} {l2 : List (κ × δ)}, mapPairsE f l = Except.ok l2 →
      l2.map Prod.fst = l.map Prod.fst := by
  intro l
  induction l with
  | nil =>
    intro l2 h
    simp only [mapPairsE] at h
    injection h with h
    subst h
    rfl
  | cons a rest ih =>
    intro l2 h
    simp only [mapPairsE] at h
    rw [bind_ok_iff] at h
    obtain ⟨v, _, h⟩ := h
    rw [bind_ok_iff] at h
    obtain ⟨vs, hvs, h⟩ := h
    injection h with h
    subst h
    simp [ih hvs]

theorem alGet_eq_none_iff {k : String} :
    ∀ {l : List (String × Json)}, alGet k l = none ↔ ∀ s ∈ l.map Prod.fst, s ≠ k := by
  intro l
  induction l with
  | nil => simp [alGet]
  | cons a rest ih =>
    constructor
    · intro h s hs
      rw [List.map_cons] at hs
      by_cases hak : a.1 = k
      · simp [alGet, hak] at h
      · have h2 : alGet k rest = none := by
          simpa [alGet, hak] using h
        rcases List.mem_cons.mp hs with hs | hs
        · subst hs
          exact hak
        · exact ih.mp h2 s hs
    · intro h
      have hak : a.1 ≠ k := h a.1 (by simp)
      simp only [alGet, beq_iff_eq, if_neg hak]
      exact ih.mpr (fun s hs => h s (by simp [hs]))

theorem all_filter_self {α : Type} {p : α → Bool} :
    ∀ l : List α, (l.filter p).all p = true := by
  intro l
  induction l with
  | nil => rfl
  | cons a rest ih =>
    by_cases h : p a
    · simp [List.filter, h, ih]
    · simp [List.filter, h, ih]

theorem alGet_append_left {k : String} {v : Json} :
    ∀ {l1 l2 : List (String × Json)}, alGet k l1 = some v → alGet k (l1 ++ l2) = some v := by
  intro l1
  induction l1 with
  | nil => intro l2 h; simp [alGet] at h
  | cons a rest ih =>
    intro l2 h
    by_cases ha : a.1 = k
    · simp [alGet, ha] at h ⊢
      exact h
    · simp [alGet, ha] at h ⊢
      exact ih h

theorem alGet_append_none {k : String} :
    ∀ {l1 l2 : List (String × Json)}, alGet k l1 = none → alGet k (l1 ++ l2) = alGet k l2 := by
  intro l1
  induction l1 with
  | nil => intro l2 _; rfl
  | cons a rest ih =>
    intro l2 h
    by_cases ha : a.1 = k
    · simp [alGet, ha] at h
    · simp [alGet, ha] at h ⊢
      exact ih h

theorem alGet_filter_none {k : String} {p : String × Json → Bool} :
    ∀ {l : List (String × Json)}, (∀ kv ∈ l, kv.1 ≠ k) → alGet k (l.filter p) = none := by
  intro l
  induction l with
  | nil => intro _; rfl
  | cons a rest ih =>
    intro h
    by_cases hp : p a
    · simp [List.filter, hp, alGet, h a (List.mem_cons_self a rest)]
      exact ih (fun kv hkv => h kv (List.mem_cons_of_mem a hkv))
    · simp [List.filter, hp]
      exact ih (fun kv hkv => h kv (List.mem_cons_of_mem a hkv))

/-- `v.required = b` really sets the attribute -/
theorem withRequired_required (s : JSONSchema) (b : Bool) : (s.withRequired b).required = b := by
  cases s
  rfl

/-- keys surviving the `is not None` filter of the base entries: `type`
exactly when a kind is present, `description` exactly when present,
`default` always -/
theorem base_keys_eq (reprF : Json → String) (s : JSONSchema) :
    ((to_dict_base reprF s).filter keepEntry).map Prod.fst =
      (if s.type.isSome then ["type"] else [])
        ++ (if s.description.isSome then ["description"] else [])
        ++ ["default"] := by
  rcases s with ⟨desc, ty, env, req, dflt, items, props, addl, mn, mx, mi, ma⟩
  cases ty <;> cases desc <;>
    simp [to_dict_base, keepEntry, Json.isNull, JSONSchema.type, JSONSchema.description,
      JSONSchema.default]

/-- keys surviving the `is not None` filter of the branch entries, per
active category and field presence -/
theorem branch_keys_eq (enc : JSONSchema → List (String × Json)) (s : JSONSchema) :
    ((to_dict_branch enc s).filter keepEntry).map Prod.fst =
      (if s.type = some .array then
        (if s.items.isSome then ["items"] else [])
          ++ (if s.minItems.isSome then ["minItems"] else [])
          ++ (if s.maxItems.isSome then ["maxItems"] else [])
      else if s.type = some .object then
        (if propsTruthy s.properties then ["properties", "required"] else [])
          ++ (if s.additional_properties.isSome then ["additionalProperties"] else [])
      else if enumTruthy s.enum then ["enum"]
      else
        (if s.minimum.isSome then ["minumum"] else [])
          ++ (if s.maximum.isSome then ["maximum"] else [])) := by
  rcases s with ⟨desc, ty, env, req, dflt, items, props, addl, mn, mx, mi, ma⟩
  by_cases hA : ty = some SchemaType.array
  · cases items <;> cases mi <;> cases ma <;>
      simp [to_dict_branch, keepEntry, Json.isNull, optJson, hA, JSONSchema.type,
        JSONSchema.items, JSONSchema.minItems, JSONSchema.maxItems, List.filter_append]
  · by_cases hO : ty = some SchemaType.object
    · rcases props with _ | (_ | ⟨p, ps⟩) <;> cases addl <;>
        simp [to_dict_branch, keepEntry, Json.isNull, propsTruthy, hA, hO,
          JSONSchema.type, JSONSchema.properties, JSONSchema.additional_properties,
          List.filter_append]
    · rcases env with _ | (_ | ⟨e, es⟩) <;> cases mn <;> cases mx <;>
        simp [to_dict_branch, keepEntry, Json.isNull, optJson, enumTruthy, hA, hO,
          JSONSchema.type, JSONSchema.enum, JSONSchema.minimum, JSONSchema.maximum,
          List.filter_append]

/-! Claim theorems. -/

/-- C1 (code bug): the round-trip `from_dict (to_dict node)` loses the
numeric lower bound, because `to_dict` writes the bound under the misspelled
key `minumum` while `from_dict` reads `minimum`.  At the node with kind
`integer` and `minimum = 5`, the encoded document holds `minumum` and no
`minimum`, and the decoded node has an absent `minimum`, so the claimed
reproduction of numeric bounds fails. -/
theorem C1_roundtrip_drops_minimum :
    to_dict 9 c1Node =
      [("type", .str "integer"), ("default", .str "None"), ("minumum", .num 5)]
    ∧ alGet "minimum" (to_dict 9 c1Node) = none
    ∧ (from_dict 9 (.obj (to_dict 9 c1Node))).map JSONSchema.minimum = .ok none
    ∧ c1Node.minimum = some 5 :=
  ⟨rfl, rfl, rfl, rfl⟩

/-- C2 counterexample: a node with an absent `default_value` does NOT yield
a document without a `default` key - `to_dict` always emits
`default = repr(self.default)`, which for an absent default is the non-null
string `"None"` and so survives the `is not None` filter. -/
theorem C2_default_always_emitted :
    emptyNode.default = Json.null
    ∧ alGet "default" (to_dict 1 emptyNode) = some (.str "None") :=
  ⟨rfl, rfl⟩

/-- C2 (amended): `to_dict` never maps a key to a null value, and the `type`
key is present exactly when the node has a kind (holding that kind's tag);
but the `default` key is always present, holding the `repr` text of the
default value (the text `None` when the default is absent), rather than
being omitted.  Every other key appears exactly when the corresponding
field is present and its category active: the emitted key list equals
`to_dict_expected_keys` (which also gives completeness: no other key is
ever emitted). -/
theorem C2_to_dict_key_policy : ∀ (fuel : Nat) (s : JSONSchema),
    (to_dict (fuel + 1) s).all keepEntry = true
    ∧ alGet "type" (to_dict (fuel + 1) s) = s.type.map (fun t => Json.str t.value)
    ∧ alGet "default" (to_dict (fuel + 1) s) = some (.str (pyRepr fuel s.default))
    ∧ (to_dict (fuel + 1) s).map Prod.fst = to_dict_expected_keys s := by
  intro fuel s
  refine ⟨?_, ?_, ?_, ?_⟩
  · simp only [to_dict]
    exact all_filter_self _
  · rcases s with ⟨desc, ty, env, req, dflt, items, props, addl, mn, mx, mi, ma⟩
    cases ty with
    | some t =>
      cases desc <;>
        simp [to_dict, alGet, keepEntry, Json.isNull, JSONSchema.type,
          JSONSchema.description, JSONSchema.default, List.filter_append, List.filter]
    | none =>
      rcases env with _ | (_ | ⟨e, es⟩) <;> cases desc <;> cases mn <;> cases mx <;>
        simp [to_dict, alGet, keepEntry, Json.isNull, JSONSchema.type, JSONSchema.enum,
          JSONSchema.description, JSONSchema.default, JSONSchema.minimum, JSONSchema.maximum,
          optJson, enumTruthy, List.filter_append, List.filter]
  · rcases s with ⟨desc, ty, env, req, dflt, items, props, addl, mn, mx, mi, ma⟩
    cases ty <;> cases desc <;>
      simp [to_dict, alGet, keepEntry, Json.isNull, JSONSchema.type,
        JSONSchema.description, JSONSchema.default, List.filter_append, List.filter]
  · simp only [to_dict, List.filter_append, List.map_append, base_keys_eq,
      branch_keys_eq, to_dict_expected_keys]

/-- C3 counterexample: a node with kind `string` and the non-empty enum
`["a", "b"]` projects to the plain primitives `str` / `string` under both
projections, not to the union-of-literal-values type. -/
theorem C3_enum_loses_to_primitive :
    c3Node.type = some .string
    ∧ enumTruthy c3Node.enum = true
    ∧ python_type 2 c3Node = .ok "str"
    ∧ typescript_type 2 c3Node = .ok "string"
    ∧ ("str" : String) ≠ "Union[" ++ joinSep ", " ([Json.str "a", Json.str "b"].map (pyRepr 1)) ++ "]"
    ∧ ("string" : String) ≠ joinSep " | " ([Json.str "a", Json.str "b"].map (pyRepr 1)) := by
  refine ⟨rfl, rfl, rfl, rfl, ?_, ?_⟩ <;> decide

/-- C3 (amended): the union-of-literal-values projection is only reached
after the primitive-table and array/object branches: a node with any
primitive kind (`string`, `integer`, `number`, `boolean`) projects to the
plain primitive in both projections regardless of its enum; a node of kind
`type` with a truthy enum projects to the union of its literal values in
both projections; a node with no kind and a truthy enum projects to the
union only in the value-language projection, the structural-interface
projection returning the universal type `any`. -/
theorem C3_enum_union_projection : ∀ (fuel : Nat) (s : JSONSchema),
    (s.type = some .string →
      python_type (fuel + 1) s = .ok "str" ∧ typescript_type (fuel + 1) s = .ok "string")
    ∧ (s.type = some .integer →
      python_type (fuel + 1) s = .ok "int" ∧ typescript_type (fuel + 1) s = .ok "number")
    ∧ (s.type = some .number →
      python_type (fuel + 1) s = .ok "float" ∧ typescript_type (fuel + 1) s = .ok "number")
    ∧ (s.type = some .boolean →
      python_type (fuel + 1) s = .ok "bool" ∧ typescript_type (fuel + 1) s = .ok "boolean")
    ∧ (s.type = some .type → enumTruthy s.enum = true →
      python_type (fuel + 1) s =
        .ok ("Union[" ++ joinSep ", " ((s.enum.getD []).map (pyRepr fuel)) ++ "]")
      ∧ typescript_type (fuel + 1) s =
        .ok (joinSep " | " ((s.enum.getD []).map (pyRepr fuel))))
    ∧ (s.type = none → enumTruthy s.enum = true →
      python_type (fuel + 1) s =
        .ok ("Union[" ++ joinSep ", " ((s.enum.getD []).map (pyRepr fuel)) ++ "]")
      ∧ typescript_type (fuel + 1) s = .ok "any") := by
  intro fuel s
  refine ⟨?_, ?_, ?_, ?_, ?_, ?_⟩
  · intro h
    exact ⟨by simp [python_type, h, JSON_TO_PYTHON_TYPE, Option.bind],
      by simp [typescript_type, h]⟩
  · intro h
    exact ⟨by simp [python_type, h, JSON_TO_PYTHON_TYPE, Option.bind],
      by simp [typescript_type, h]⟩
  · intro h
    exact ⟨by simp [python_type, h, JSON_TO_PYTHON_TYPE, Option.bind],
      by simp [typescript_type, h]⟩
  · intro h
    exact ⟨by simp [python_type, h, JSON_TO_PYTHON_TYPE, Option.bind],
      by simp [typescript_type, h]⟩
  · intro h he
    exact ⟨by simp [python_type, h, he, JSON_TO_PYTHON_TYPE, Option.bind],
      by simp [typescript_type, h, he]⟩
  · intro h he
    exact ⟨by simp [python_type, h, he, JSON_TO_PYTHON_TYPE, Option.bind],
      by simp [typescript_type, h]⟩

/-- C3 witness: the amended theorem applied at enum-carrying nodes of every
primitive kind, of kind `type`, and with no kind. -/
theorem C3_enum_union_projection_witness :
    (python_type 2 c3Node = .ok "str" ∧ typescript_type 2 c3Node = .ok "string")
    ∧ (python_type 2 c3IntNode = .ok "int" ∧ typescript_type 2 c3IntNode = .ok "number")
    ∧ (python_type 2 c3NumNode = .ok "float" ∧ typescript_type 2 c3NumNode = .ok "number")
    ∧ (python_type 2 c3BoolNode = .ok "bool" ∧ typescript_type 2 c3BoolNode = .ok "boolean")
    ∧ (python_type 2 c3TypeNode =
        .ok ("Union[" ++ joinSep ", " ([Json.str "a"].map (pyRepr 1)) ++ "]")
      ∧ typescript_type 2 c3TypeNode = .ok (joinSep " | " ([Json.str "a"].map (pyRepr 1))))
    ∧ (python_type 2 c3NoneNode =
        .ok ("Union[" ++ joinSep ", " ([Json.str "a"].map (pyRepr 1)) ++ "]")
      ∧ typescript_type 2 c3NoneNode = .ok "any") :=
  ⟨(C3_enum_union_projection 1 c3Node).1 rfl,
   (C3_enum_union_projection 1 c3IntNode).2.1 rfl,
   (C3_enum_union_projection 1 c3NumNode).2.2.1 rfl,
   (C3_enum_union_projection 1 c3BoolNode).2.2.2.1 rfl,
   (C3_enum_union_projection 1 c3TypeNode).2.2.2.2.1 rfl rfl,
   (C3_enum_union_projection 1 c3NoneNode).2.2.2.2.2 rfl rfl⟩

/-- C8 (code bug): list-type inference never produces the claimed array
node.  A parametrized list type is a generic alias, not a class, so
`issubclass(T, BaseModel)` raises `TypeError: issubclass() arg 1 must be a
class` before the list branch is reached; a bare `list` reaches the branch
but `typing.get_args(list)[0]` raises `IndexError` on the empty args tuple
before the `else None` untyped-array fallback (written in the source for
exactly that case) can fire. -/
theorem C8_list_inference :
    (∀ (fuel : Nat) (a : PyType) (rest : List PyType),
      from_python_type (fuel + 1) (.list (a :: rest)) =
        .error "TypeError: issubclass() arg 1 must be a class")
    ∧ from_python_type 3 (.list []) = .error "IndexError: tuple index out of range" :=
  ⟨fun _ _ _ => rfl, rfl⟩

/-- C9: the value-language projection of an object node with truthy
(non-empty) `properties` fails with `NotImplementedError`; an object node
with falsy (absent or empty) `properties` projects to the generic mapping
type `dict`. -/
theorem C9_object_projection : ∀ (fuel : Nat) (s : JSONSchema),
    s.type = some .object →
    (propsTruthy s.properties = true →
      python_type (fuel + 1) s =
        .error "NotImplementedError: JSONSchema.python_type does not support TypedDicts yet")
    ∧ (propsTruthy s.properties = false → python_type (fuel + 1) s = .ok "dict") := by
  intro fuel s h
  constructor
  · intro hp
    simp [python_type, h, hp, JSON_TO_PYTHON_TYPE, Option.bind]
  · intro hp
    simp [python_type, h, hp, JSON_TO_PYTHON_TYPE, Option.bind]

/-- C9 witness: the theorem applied at an object node with one property and
at an object node with no properties. -/
theorem C9_object_projection_witness :
    python_type 2 c9ClosedNode =
      .error "NotImplementedError: JSONSchema.python_type does not support TypedDicts yet"
    ∧ python_type 2 c9OpenNode = .ok "dict" :=
  ⟨(C9_object_projection 1 c9ClosedNode rfl).1 rfl,
   (C9_object_projection 1 c9OpenNode rfl).2 rfl⟩

/-- C4: traversal shape of the reference resolver: scalars pass through
unchanged; sequences resolve element-wise; a mapping holding `$ref` is
replaced wholesale by the recursively resolved referenced fragment (its
sibling keys are irrelevant: the result is the same as for the mapping
holding only the `$ref` entry, and the looked-up fragment is itself resolved
before being used); a mapping without `$ref` is copied key-by-key with every
value recursively resolved.  Finally the spec's concrete example: a `$ref`
to `Foo`, where `Foo` is itself a `$ref` to `Bar`, resolves fully to the
`Bar` fragment. -/
theorem C4_resolver_traversal :
    (∀ (fuel : Nat) (defs : Json) (n : Int) (b : Bool) (st : String),
      resolve_type_refs_in_schema (fuel + 1) .null defs = .ok .null
      ∧ resolve_type_refs_in_schema (fuel + 1) (.bool b) defs = .ok (.bool b)
      ∧ resolve_type_refs_in_schema (fuel + 1) (.num n) defs = .ok (.num n)
      ∧ resolve_type_refs_in_schema (fuel + 1) (.str st) defs = .ok (.str st))
    ∧ (∀ (fuel : Nat) (defs : Json) (l : List Json),
      resolve_type_refs_in_schema (fuel + 1) (.arr l) defs = do
        let r ← mapME (fun x => resolve_type_refs_in_schema fuel x defs) l
        pure (Json.arr r))
    ∧ (∀ (fuel : Nat) (defs : Json) (fields : List (String × Json)) (p : String),
      alGet "$ref" fields = some (.str p) →
      resolve_type_refs_in_schema (fuel + 1) (.obj fields) defs = do
        let frag ← ref_lookup defs (refPath p)
        resolve_type_refs_in_schema fuel frag defs)
    ∧ (∀ (fuel : Nat) (defs : Json) (fields : List (String × Json)) (rv : Json),
      alGet "$ref" fields = some rv →
      resolve_type_refs_in_schema (fuel + 1) (.obj fields) defs =
        resolve_type_refs_in_schema (fuel + 1) (.obj [("$ref", rv)]) defs)
    ∧ (∀ (fuel : Nat) (defs : Json) (fields : List (String × Json)),
      alGet "$ref" fields = none →
      resolve_type_refs_in_schema (fuel + 1) (.obj fields) defs = do
        let r ← mapPairsE (fun v => resolve_type_refs_in_schema fuel v defs) fields
        pure (Json.obj r))
    ∧ resolve_type_refs_in_schema 9 (.obj [("$ref", .str "#/definitions/Foo")]) defs0 =
        .ok (.obj [("type", .str "string")]) := by
  refine ⟨?_, ?_, ?_, ?_, ?_, rfl⟩
  · intro fuel defs n b st
    exact ⟨rfl, rfl, rfl, rfl⟩
  · intro fuel defs l
    rfl
  · intro fuel defs fields p h
    simp only [resolve_type_refs_in_schema, h]
  · intro fuel defs fields rv h
    cases rv <;> simp [resolve_type_refs_in_schema, h, alGet]
  · intro fuel defs fields h
    simp only [resolve_type_refs_in_schema, h]

/-- C4 witness: the hypothesis-bearing parts of the traversal theorem
applied at concrete inputs: a mapping whose `$ref` has a sibling key, and a
ref-free mapping. -/
theorem C4_resolver_traversal_witness :
    (resolve_type_refs_in_schema 5
        (.obj [("$ref", .str "#/definitions/Foo"), ("sibling", .num 1)]) defs0 =
      do
        let frag ← ref_lookup defs0 (refPath "#/definitions/Foo")
        resolve_type_refs_in_schema 4 frag defs0)
    ∧ (resolve_type_refs_in_schema 5
        (.obj [("$ref", .str "#/definitions/Foo"), ("sibling", .num 1)]) defs0 =
      resolve_type_refs_in_schema 5 (.obj [("$ref", .str "#/definitions/Foo")]) defs0)
    ∧ (resolve_type_refs_in_schema 5 (.obj [("a", .num 1)]) defs0 =
      do
        let r ← mapPairsE (fun v => resolve_type_refs_in_schema 4 v defs0) [("a", .num 1)]
        pure (Json.obj r)) :=
  ⟨C4_resolver_traversal.2.2.1 4 defs0 _ "#/definitions/Foo" rfl,
   C4_resolver_traversal.2.2.2.1 4 defs0 _ (.str "#/definitions/Foo") rfl,
   C4_resolver_traversal.2.2.2.2.1 4 defs0 _ rfl⟩

/-- C5: a `$ref` whose path fails to look up in the definitions table makes
resolution fail with the lookup error (part 1), and resolution never falls
back to returning an unresolved or partially resolved tree: any successful
result is `$ref`-free at every depth (part 2). -/
theorem C5_missing_ref_fatal :
    (∀ (fuel : Nat) (fields : List (String × Json)) (defs : Json) (p e : String),
      alGet "$ref" fields = some (.str p) → ref_lookup defs (refPath p) = .error e →
      resolve_type_refs_in_schema (fuel + 1) (.obj fields) defs = .error e)
    ∧ (∀ (fuel g : Nat) (defs d r : Json),
      resolve_type_refs_in_schema fuel d defs = .ok r → refFreeB g r = true) := by
  constructor
  · intro fuel fields defs p e h1 h2
    simp only [resolve_type_refs_in_schema, h1, h2, error_bind]
  · intro fuel
    induction fuel with
    | zero =>
      intro g defs d r h
      simp [resolve_type_refs_in_schema] at h
    | succ fuel ih =>
      intro g defs d r h
      cases d with
      | null =>
        simp only [resolve_type_refs_in_schema] at h
        injection h with h
        subst h
        cases g <;> rfl
      | bool b =>
        simp only [resolve_type_refs_in_schema] at h
        injection h with h
        subst h
        cases g <;> rfl
      | num n =>
        simp only [resolve_type_refs_in_schema] at h
        injection h with h
        subst h
        cases g <;> rfl
      | str st =>
        simp only [resolve_type_refs_in_schema] at h
        injection h with h
        subst h
        cases g <;> rfl
      | arr l =>
        simp only [resolve_type_refs_in_schema] at h
        rw [bind_ok_iff] at h
        obtain ⟨l2, hmap, h⟩ := h
        rw [pure_ok_iff] at h
        subst h
        cases g with
        | zero => rfl
        | succ g =>
          simp only [refFreeB]
          rw [List.all_eq_true]
          intro x hx
          obtain ⟨a, -, ha⟩ := mapME_ok_forall hmap x hx
          exact ih g defs a x ha
      | obj fields =>
        simp only [resolve_type_refs_in_schema] at h
        cases href : alGet "$ref" fields with
        | some rv =>
          rw [href] at h
          cases rv with
          | str p =>
            rw [bind_ok_iff] at h
            obtain ⟨frag, -, h⟩ := h
            exact ih g defs frag r h
          | null => simp at h
          | bool b => simp at h
          | num n => simp at h
          | arr l => simp at h
          | obj l => simp at h
        | none =>
          rw [href] at h
          rw [bind_ok_iff] at h
          obtain ⟨fields2, hmap, h⟩ := h
          rw [pure_ok_iff] at h
          subst h
          cases g with
          | zero => rfl
          | succ g =>
            simp only [refFreeB, Bool.and_eq_true]
            constructor
            · have hkeys := mapPairsE_keys hmap
              have hnone : alGet "$ref" fields2 = none := by
                rw [alGet_eq_none_iff, hkeys]
                exact alGet_eq_none_iff.mp href
              simp [hnone]
            · rw [List.all_eq_true]
              intro kv hkv
              obtain ⟨v, -, hvok⟩ := mapPairsE_ok_forall hmap kv hkv
              exact ih g defs v kv.2 hvok

/-- C5 witness: a `$ref` to a missing definition fails with the `KeyError`,
and a successful resolution is `$ref`-free. -/
theorem C5_missing_ref_fatal_witness :
    resolve_type_refs_in_schema 5 (.obj [("$ref", .str "#/definitions/Baz")]) defs0 =
      .error "KeyError: Baz"
    ∧ refFreeB 3 (.obj [("type", .str "string")]) = true :=
  ⟨C5_missing_ref_fatal.1 4 _ defs0 "#/definitions/Baz" "KeyError: Baz" rfl rfl,
   C5_missing_ref_fatal.2 9 3 defs0 (.obj [("$ref", .str "#/definitions/Foo")])
     (.obj [("type", .str "string")]) rfl⟩

/-- every node constructed by `from_dict` carries the pydantic default
`required = False` (the decoder never passes `required`) -/
theorem from_dict_required_false : ∀ (fuel : Nat) (j : Json) (n : JSONSchema),
    from_dict fuel j = .ok n → n.required = false := by
  intro fuel j n h
  match fuel with
  | 0 => simp [from_dict] at h
  | fuel + 1 =>
    simp only [from_dict] at h
    rw [bind_ok_iff] at h
    obtain ⟨fs, -, h⟩ := h
    rw [bind_ok_iff] at h
    obtain ⟨res, -, h⟩ := h
    rw [bind_ok_iff] at h
    obtain ⟨f, -, h⟩ := h
    rw [bind_ok_iff] at h
    obtain ⟨tyv, -, h⟩ := h
    rw [bind_ok_iff] at h
    obtain ⟨dflt, -, h⟩ := h
    rw [bind_ok_iff] at h
    obtain ⟨items, -, h⟩ := h
    rw [bind_ok_iff] at h
    obtain ⟨props, -, h⟩ := h
    rw [bind_ok_iff] at h
    obtain ⟨addl, -, h⟩ := h
    rw [bind_ok_iff] at h
    obtain ⟨desc, -, h⟩ := h
    rw [bind_ok_iff] at h
    obtain ⟨ty, -, h⟩ := h
    rw [bind_ok_iff] at h
    obtain ⟨env, -, h⟩ := h
    rw [bind_ok_iff] at h
    obtain ⟨mn, -, h⟩ := h
    rw [bind_ok_iff] at h
    obtain ⟨mx, -, h⟩ := h
    rw [bind_ok_iff] at h
    obtain ⟨mi, -, h⟩ := h
    rw [bind_ok_iff] at h
    obtain ⟨ma, -, h⟩ := h
    rw [pure_ok_iff] at h
    subst h
    rfl

/-- C6: after reference resolution, `from_dict` requires the `type` key: a
resolved document without it fails with the `KeyError`, and when the key
holds a string the decoded node's kind is exactly the pydantic coercion of
that string. -/
theorem C6_type_mandatory : ∀ (fuel : Nat) (fields f : List (String × Json)),
    resolve_type_refs_in_schema (fuel + 1) (.obj fields)
        ((alGet "definitions" fields).getD (.obj [])) = .ok (.obj f) →
    (alGet "type" f = none → from_dict (fuel + 1) (.obj fields) = .error "KeyError: type")
    ∧ (∀ (ts : String) (n : JSONSchema), alGet "type" f = some (.str ts) →
        from_dict (fuel + 1) (.obj fields) = .ok n → n.type = SchemaType.ofString ts) := by
  intro fuel fields f hres
  constructor
  · intro hty
    simp only [from_dict, dictFields, typeKey, hres, hty, ok_bind, error_bind, pure_bind]
  · intro ts n hty hok
    simp only [from_dict, dictFields, typeKey, hres, hty, ok_bind, error_bind, pure_bind] at hok
    rw [bind_ok_iff] at hok
    obtain ⟨dflt, -, hok⟩ := hok
    rw [bind_ok_iff] at hok
    obtain ⟨items, -, hok⟩ := hok
    rw [bind_ok_iff] at hok
    obtain ⟨props, -, hok⟩ := hok
    rw [bind_ok_iff] at hok
    obtain ⟨addl, -, hok⟩ := hok
    rw [bind_ok_iff] at hok
    obtain ⟨desc, -, hok⟩ := hok
    rw [bind_ok_iff] at hok
    obtain ⟨tyOpt, htyOpt, hok⟩ := hok
    rw [bind_ok_iff] at hok
    obtain ⟨env, -, hok⟩ := hok
    rw [bind_ok_iff] at hok
    obtain ⟨mn, -, hok⟩ := hok
    rw [bind_ok_iff] at hok
    obtain ⟨mx, -, hok⟩ := hok
    rw [bind_ok_iff] at hok
    obtain ⟨mi, -, hok⟩ := hok
    rw [bind_ok_iff] at hok
    obtain ⟨ma, -, hok⟩ := hok
    rw [pure_ok_iff] at hok
    subst hok
    cases hof : SchemaType.ofString ts with
    | none =>
      simp [typeField, hof] at htyOpt
    | some t =>
      simp only [typeField, hof] at htyOpt
      injection htyOpt with htyOpt
      subst htyOpt
      simp [JSONSchema.type, hof]

/-- C6 witness: the theorem applied at a document without `type` (decode
fails with the `KeyError`) and at a document whose `type` is `integer`. -/
theorem C6_type_mandatory_witness :
    from_dict 4 (.obj [("x", .num 1)]) = .error "KeyError: type"
    ∧ (JSONSchema.mk none (some .integer) none false .null none none none
        none none none none).type = SchemaType.ofString "integer" :=
  ⟨(C6_type_mandatory 3 [("x", .num 1)] [("x", .num 1)] rfl).1 rfl,
   (C6_type_mandatory 3 [("type", .str "integer")] [("type", .str "integer")] rfl).2
     "integer" _ rfl rfl⟩

/-- when the `required` entry is a list, the derivation loop never raises
and rewrites every property's flag to the membership bit -/
theorem setRequiredE_arr {reqd : List Json} :
    ∀ l : List (String × JSONSchema),
      setRequiredE (.arr reqd) l =
        .ok (l.map (fun kv => (kv.1, kv.2.withRequired (reqd.any (pyEqStr kv.1))))) := by
  intro l
  induction l with
  | nil => rfl
  | cons a rest ih => simp [setRequiredE, py_in, ih]

/-- C7: for a decoded object document, every property node's `required`
flag equals the membership of its key in the document's `required` list,
and with no `required` entry every property node keeps `required = False`. -/
theorem C7_required_derivation : ∀ (fuel : Nat) (fields : List (String × Json))
    (props : List (String × JSONSchema)),
    parse_properties (fuel + 1) fields = .ok props →
    (∀ reqd : List Json, alGet "required" fields = some (.arr reqd) →
      props.all (fun kv => kv.2.required == reqd.any (pyEqStr kv.1)) = true)
    ∧ (alGet "required" fields = none →
      props.all (fun kv => kv.2.required == false) = true) := by
  intro fuel fields props h
  simp only [parse_properties] at h
  rw [bind_ok_iff] at h
  obtain ⟨props0, hprops0, h⟩ := h
  constructor
  · intro reqd hreq
    rw [hreq] at h
    simp only [reqStep] at h
    rw [setRequiredE_arr] at h
    injection h with h
    subst h
    rw [List.all_eq_true]
    intro kv hkv
    rw [List.mem_map] at hkv
    obtain ⟨kv0, -, hkv0⟩ := hkv
    subst hkv0
    simp [withRequired_required]
  · intro hreq
    rw [hreq] at h
    simp only [reqStep] at h
    injection h with h
    subst h
    rw [List.all_eq_true]
    intro kv hkv
    cases hp : alGet "properties" fields with
    | none =>
      rw [hp] at hprops0
      simp only [propsStep] at hprops0
      injection hprops0 with hprops0
      subst hprops0
      simp at hkv
    | some v =>
      rw [hp] at hprops0
      cases v with
      | obj pf =>
        simp only [propsStep] at hprops0
        obtain ⟨w, -, hw⟩ := mapPairsE_ok_forall hprops0 kv hkv
        simp [from_dict_required_false fuel w kv.2 hw]
      | null => simp [propsStep] at hprops0
      | bool b => simp [propsStep] at hprops0
      | num n => simp [propsStep] at hprops0
      | str s => simp [propsStep] at hprops0
      | arr l => simp [propsStep] at hprops0

/-- C7 witness: the theorem applied at the spec's example document (property
`a` becomes required) and at the same document without the `required`
entry. -/
theorem C7_required_derivation_witness :
    ([("a", (JSONSchema.mk none (some .string) none false .null none none none
        none none none none).withRequired true)].all
      (fun kv => kv.2.required == [Json.str "a"].any (pyEqStr kv.1)) = true)
    ∧ ([("a", JSONSchema.mk none (some .string) none false .null none none none
        none none none none)].all (fun kv => kv.2.required == false) = true) :=
  ⟨(C7_required_derivation 3
      [("type", .str "object"),
       ("properties", .obj [("a", .obj [("type", .str "string")])]),
       ("required", .arr [.str "a"])] _ rfl).1 [.str "a"] rfl,
   (C7_required_derivation 3
      [("type", .str "object"),
       ("properties", .obj [("a", .obj [("type", .str "string")])])] _ rfl).2 rfl⟩

end ForgeJsonSchema
